import Mathlib

/-!
Verification of the Midea Serial sigrok protocol decoder
(`src/midea_serial/pd.py`) against its natural-language specification.

The decoder is embedded shallowly: the per-direction frame-reassembly
state machine of `Decoder.decode` becomes a pure step function on an
explicit `DirState`, the sigrok `put` calls become values of type `Ann`
collected in a list, and Python's fallible list indexing becomes the
`Option` monad (`none` models an `IndexError`).  Bytes are `Nat`s; the
source never masks them, so no modular reduction is needed outside the
integrity primitives.
-/

namespace MideaSerial

/-- `RX = 0`: appliance→module direction (AM). -/
def RX : Nat := 0
/-- `TX = 1`: module→appliance direction (MA). -/
def TX : Nat := 1

def HEADER_LENGTH : Nat := 8
def LENGTH_OFFSET : Nat := 0
def APPLIANCE_TYPE_OFFSET : Nat := 1
def MSG_ID_OFFSET : Nat := 5
def FRAMEWORK_VERSION_OFFSET : Nat := 6
def APPLIANCE_VERSION_OFFSET : Nat := 7
def MSG_TYPE_OFFSET : Nat := 8
def MSG_BODY_OFFSET : Nat := 9

/-- Modelled from the spec: the additive checksum primitive
`checksum(bytes) = (-sum(bytes)) mod 256` lives in `midea_serial/util.py`,
which is not part of the sources; §4.1 of the spec defines it as the
two's-complement negated sum modulo 256, returning 0 on the empty list. -/
def checksum (bs : List Nat) : Nat :=
  (256 - bs.sum % 256) % 256

/-- Modelled from the spec: the `crc8(bytes)` primitive also lives in the
missing `midea_serial/util.py`; §4.1 only fixes it to be a deterministic
table-driven CRC-8 matching the protocol's published parameterization.
We use the reflected polynomial 0x8C (CRC-8/MAXIM), bitwise; every claim
that touches `crc8` only needs determinism and executability, never the
particular polynomial. -/
def crc8Step (crc b : Nat) : Nat :=
  (List.range 8).foldl
    (fun c _ => if c % 2 = 1 then (c / 2) ^^^ 0x8C else c / 2)
    ((crc ^^^ b) % 256)

def crc8 (bs : List Nat) : Nat :=
  bs.foldl crc8Step 0

/-- The `wifi_mode_req_str` lookup table (Python dict). -/
def wifi_mode_req_str : Nat → Option String
  | 1 => some "Switch to AP mode"
  | 2 => some "Switch to STA mode"
  | _ => none

/-- The `wifi_mode_res_str` lookup table (Python dict). -/
def wifi_mode_res_str : Nat → Option String
  | 0 => some "The mode has not changed"
  | 1 => some "Switched from STA to AP mode"
  | 2 => some "Switched from AP to STA mode"
  | _ => none

/-- The `ac_mode_str` lookup table (Python dict). -/
def ac_mode_str : Nat → Option String
  | 1 => some "auto"
  | 2 => some "cool"
  | 3 => some "dry"
  | 4 => some "heat"
  | 5 => some "fan only"
  | _ => none

/-- The `ac_fan_speed_str` lookup table (Python dict). -/
def ac_fan_speed_str : Nat → Option String
  | 20 => some "silent"
  | 40 => some "low"
  | 60 => some "medium"
  | 80 => some "high"
  | 102 => some "auto"
  | _ => none

/-- Python's `'{:02X}'.format(n)` for byte values: two uppercase hex
digits, zero-padded. -/
def hex2 (n : Nat) : String :=
  let ds := (Nat.toDigits 16 n).map Char.toUpper
  String.mk (if ds.length < 2 then List.replicate (2 - ds.length) '0' ++ ds else ds)

/-- Python's `'{:.2f}'.format(x)` for a non-negative half-integer given in
half-units (the AC setpoint is always `k` or `k + 0.5`). -/
def fmtHalf (h : Nat) : String :=
  toString (h / 2) ++ "." ++ (if h % 2 = 1 then "50" else "00")

/-- Python's `'{}'.format(x)` for a half-integer (possibly negative) given
in half-units; `str` of a Python float that is an exact multiple of 0.5
(the AC temperature fields `(byte - 50) / 2`). -/
def fmtIntHalf (h : Int) : String :=
  (if h < 0 then "-" else "")
    ++ toString (h.natAbs / 2) ++ "." ++ (if h.natAbs % 2 = 1 then "5" else "0")

/-- One `self.put(...)` call: the sigrok annotation row index and the list
of alternative texts. -/
structure Ann where
  row : Nat
  texts : List String
  deriving DecidableEq, Repr

/-- The `DecoderState` enumeration of `pd.py`. -/
inductive DecoderState where
  | IDLE
  | READ_HEADER
  | READ_MESSAGE
  deriving DecidableEq, Repr

/-- Per-direction slice of the decoder's mutable state: `self.state[rxtx]`
and `self.data[rxtx]` (the sample-position bookkeeping
`ss_header_block`/`ss_msg_block` carries no decode-relevant information
and is dropped). -/
structure DirState where
  state : DecoderState
  data : List Nat
  deriving DecidableEq, Repr

/-- A freshly `reset` direction. -/
def dirInit : DirState := ⟨DecoderState.IDLE, []⟩

/-- A handler is `cmd_handler_*(self, ss, es, (rxtx, read_data))` with the
sample positions dropped: it receives the direction and
`self.data[rxtx][:-1]` and produces annotations, or `none` on an
out-of-range index. -/
def Handler : Type := Fin 2 → List Nat → Option (List Ann)

/-- `'L: {:d}, At: {:02X}, Mid:{:02X}, v:{:02X}{:02X}'` of the header
annotation. -/
def headerStr (l at_ mid fw av : Nat) : String :=
  "L: " ++ toString l ++ ", At: " ++ hex2 at_ ++ ", Mid:" ++ hex2 mid
    ++ ", v:" ++ hex2 fw ++ hex2 av

/-- `'Type: {:02X}, {}, Checksum: {:02X}'` of the message annotation. -/
def msgStr (mt : Nat) (bodyHex : String) (cs : Nat) : String :=
  "Type: " ++ hex2 mt ++ ", " ++ bodyHex ++ ", Checksum: " ++ hex2 cs

/-- `cmd_handler_default`. -/
def cmd_handler_default : Handler := fun rxtx read_data => do
  let mt ← read_data.get? MSG_TYPE_OFFSET
  some [⟨6 + rxtx.val, ["msg type 0x" ++ hex2 mt, "0x" ++ hex2 mt]⟩]

/-- `cmd_handler_0x04`: equipment operating parameters report. -/
def cmd_handler_0x04 : Handler := fun rxtx _ =>
  if rxtx.val = 0 then
    some [⟨6 + rxtx.val, ["Equipment operating parameters report", "0x04"]⟩]
  else
    some [⟨8, ["Response not expected", "!0x04"]⟩]

/-- `cmd_handler_0x05`. -/
def cmd_handler_0x05 : Handler := fun rxtx _ =>
  if rxtx.val = 0 then
    some [⟨6 + rxtx.val, ["Equipment operating parameters report with response", "0x05>"]⟩]
  else
    some [⟨6 + rxtx.val, ["Response for Equipment operating parameters report", "<0x05"]⟩]

/-- `cmd_handler_0x06`. -/
def cmd_handler_0x06 : Handler := fun rxtx _ =>
  if rxtx.val = 0 then
    some [⟨6 + rxtx.val, ["Equipment abnormal event reporting", "0x06"]⟩]
  else
    some [⟨8, ["Response not expected", "!0x06"]⟩]

/-- `cmd_handler_0x0a`. -/
def cmd_handler_0x0a : Handler := fun rxtx _ =>
  if rxtx.val = 0 then
    some [⟨6 + rxtx.val, ["Equipment abnormal event reporting with response", "0x0A>"]⟩]
  else
    some [⟨6 + rxtx.val, ["Response for Equipment abnormal event reporting", "<0x0A"]⟩]

/-- `cmd_handler_0x12`. -/
def cmd_handler_0x12 : Handler := fun rxtx _ =>
  if rxtx.val = 0 then
    some [⟨6 + rxtx.val, ["SSID rename", "0x12>"]⟩]
  else
    some [⟨6 + rxtx.val, ["Response for SSID rename", "<0x12"]⟩]

/-- `cmd_handler_0x61`. -/
def cmd_handler_0x61 : Handler := fun rxtx _ =>
  if rxtx.val = 0 then
    some [⟨6 + rxtx.val, ["Time adjustment", "0x61>"]⟩]
  else
    some [⟨6 + rxtx.val, ["Response for Time adjustment", "<0x61"]⟩]

/-- `cmd_handler_0x63`: home appliance query network and signal status.
In the MA direction it unconditionally indexes the message body at
offsets 0–11 (plus the reversed IP slice `msg_body[3:7]`), so the
embedding is fallible. -/
def cmd_handler_0x63 : Handler := fun rxtx read_data =>
  if rxtx.val = 0 then
    some [⟨6 + rxtx.val, ["Query network status", "0x63>"]⟩]
  else do
    let msg_body := read_data.drop MSG_BODY_OFFSET
    let b0 ← msg_body.get? 0
    let module_type := if b0 = 0 then "RF" else "Wi-Fi"
    let module_mode ← msg_body.get? 1
    let _wifi_signal_strength ← msg_body.get? 2
    let ip_address := (msg_body.drop 3).take 4
    let _rf_signal_strength ← msg_body.get? 7
    let b8 ← msg_body.get? 8
    let network_status := if b8 = 0 then "OK" else toString b8
    let b9 ← msg_body.get? 9
    let cloud_status := if b9 = 0 then "OK" else toString b9
    let _conn_status ← msg_body.get? 10
    let _tcp_conn_count ← msg_body.get? 11
    let ip3 ← ip_address.get? 3
    let ip2 ← ip_address.get? 2
    let ip1 ← ip_address.get? 1
    let ip0 ← ip_address.get? 0
    some [⟨6 + rxtx.val,
      [module_type ++ "(" ++ toString module_mode ++ "), IP: "
        ++ toString ip3 ++ "." ++ toString ip2 ++ "." ++ toString ip1 ++ "." ++ toString ip0
        ++ ", Net Status: " ++ network_status ++ ", Cloud status: " ++ cloud_status,
       "<0x63"]⟩]

/-- `cmd_handler_0x68`. -/
def cmd_handler_0x68 : Handler := fun rxtx _ =>
  if rxtx.val = 0 then
    some [⟨6 + rxtx.val, ["Switch Wi-Fi signal command", "0x68>"]⟩]
  else
    some [⟨6 + rxtx.val, ["Response for Switch Wi-Fi signal command", "<0x68"]⟩]

/-- `cmd_handler_0x6a`. -/
def cmd_handler_0x6a : Handler := fun rxtx _ =>
  if rxtx.val = 0 then
    some [⟨6 + rxtx.val, ["Wi-Fi parameter configuration", "0x6A>"]⟩]
  else
    some [⟨6 + rxtx.val, ["Response for Wi-Fi parameter configuration", "<0x6A"]⟩]

/-- `cmd_handler_0x6b`. -/
def cmd_handler_0x6b : Handler := fun rxtx _ =>
  if rxtx.val = 0 then
    some [⟨6 + rxtx.val, ["Home appliance query AP list", "0x6B>"]⟩]
  else
    some [⟨6 + rxtx.val, ["Response for Home appliance query AP list", "<0x6B"]⟩]

/-- `cmd_handler_0x81`: Wi-Fi working mode switch. -/
def cmd_handler_0x81 : Handler := fun rxtx read_data => do
  let msg_body := read_data.drop MSG_BODY_OFFSET
  if rxtx.val = 0 then do
    let b0 ← msg_body.get? 0
    let req_str := (wifi_mode_req_str b0).getD "Switch to unknown mode"
    some [⟨6 + rxtx.val, [req_str, "0x81>"]⟩]
  else do
    let b0 ← msg_body.get? 0
    let res_str := (wifi_mode_res_str b0).getD "Unknown response"
    some [⟨6 + rxtx.val, [res_str, "<0x81"]⟩]

/-- `cmd_handler_0x82`: Wi-Fi module restart. -/
def cmd_handler_0x82 : Handler := fun rxtx read_data =>
  let msg_body := read_data.drop MSG_BODY_OFFSET
  if rxtx.val = 0 then
    some [⟨6 + rxtx.val, ["Wi-Fi module restart", "0x82>"]⟩]
  else do
    let b0 ← msg_body.get? 0
    some [⟨6 + rxtx.val, [if b0 = 0 then "Restart successful" else "Restart failed", "<0x82"]⟩]

/-- `cmd_handler_0x83`. -/
def cmd_handler_0x83 : Handler := fun rxtx _ =>
  if rxtx.val = 0 then
    some [⟨6 + rxtx.val, ["Restore factory settings of Wi-Fi module", "0x83>"]⟩]
  else
    some [⟨6 + rxtx.val, ["Response for Restore factory settings of Wi-Fi module", "<0x83"]⟩]

/-- `cmd_handler_0x02`: generic device control command. -/
def cmd_handler_0x02 : Handler := fun rxtx _ =>
  if rxtx.val = 1 then
    some [⟨6 + rxtx.val, ["Device control command", "0x02>"]⟩]
  else
    some [⟨6 + rxtx.val, ["Response for Device control command", "<0x02"]⟩]

/-- `mode_str` of the AC handler: `ac_mode_str[mode]` with the
`'unknown({})'` fallback, where `mode = (msg_body[2] & 0xE0) >> 5`. -/
def acModeStr (b2 : Nat) : String :=
  let mode := (b2 &&& 0xE0) >>> 5
  (ac_mode_str mode).getD ("unknown(" ++ toString mode ++ ")")

/-- The AC setpoint `(msg_body[2] & 0x0F) + 16 + (0.5 if msg_body[2] & 0x10 else 0)`
in half-degree units. -/
def acSetpointHalf (b2 : Nat) : Nat :=
  2 * ((b2 &&& 0x0F) + 16) + (if b2 &&& 0x10 ≠ 0 then 1 else 0)

/-- The setpoint as rendered by `'{:.2f}'`. -/
def acSetpointStr (b2 : Nat) : String :=
  fmtHalf (acSetpointHalf b2)

/-- `fanspeed_str` of the AC handler: `ac_fan_speed_str[fanspeed]` with the
plain `'{}'` fallback. -/
def acFanSpeedStr (b3 : Nat) : String :=
  (ac_fan_speed_str b3).getD (toString b3)

/-- `swing_str` of the AC handler, from `msg_body[7]`. -/
def acSwingStr (b7 : Nat) : String :=
  "horizontal " ++ (if b7 &&& 0xC0 ≠ 0 then "on" else "off")
    ++ ",vertical " ++ (if b7 &&& 0x03 ≠ 0 then "on" else "off")

/-- `status_flags_str` of the control branch (`rxtx == 1`), from
`msg_body[1]`. -/
def acControlFlagsStr (b1 : Nat) : String :=
  String.intercalate ", "
    ((if b1 &&& 0x40 ≠ 0 then ["keyStatus"] else [])
      ++ (if b1 &&& 0x20 ≠ 0 then ["fastCheckActive"] else [])
      ++ (if b1 &&& 0x10 ≠ 0 then ["timerMode"] else [])
      ++ (if b1 &&& 0x08 ≠ 0 then ["childSleepMode"] else [])
      ++ (if b1 &&& 0x04 ≠ 0 then ["resume"] else [])
      ++ (if b1 &&& 0x02 ≠ 0 then ["remoteControlMode"] else [])
      ++ [if b1 &&& 0x01 ≠ 0 then "on" else "off"])

/-- `status_flags_str` of the response branch (`rxtx == 0`). -/
def acResponseFlagsStr (b1 : Nat) : String :=
  String.intercalate ", "
    ((if b1 &&& 0x80 ≠ 0 then ["error"] else [])
      ++ (if b1 &&& 0x20 ≠ 0 then ["fastCheckActive"] else [])
      ++ (if b1 &&& 0x10 ≠ 0 then ["timerMode"] else [])
      ++ (if b1 &&& 0x04 ≠ 0 then ["resume"] else [])
      ++ [if b1 &&& 0x01 ≠ 0 then "on" else "off"])

/-- The `'Control command[{}]: {}, mode={}, setpoint={:.2f}, fanspeed={}, swing={}'`
text of the AC control branch. -/
def acControlText (msg_id : Nat) (flags : String) (b2 b3 b7 : Nat) : String :=
  "Control command[" ++ toString msg_id ++ "]: " ++ flags
    ++ ", mode=" ++ acModeStr b2
    ++ ", setpoint=" ++ acSetpointStr b2
    ++ ", fanspeed=" ++ acFanSpeedStr b3
    ++ ", swing=" ++ acSwingStr b7

/-- The response-branch text with indoor/outdoor temperatures
`(msg_body[11] - 50) / 2`, `(msg_body[12] - 50) / 2` and the error code
`msg_body[16]`. -/
def acResponseText (msg_id : Nat) (flags : String) (b2 b3 b7 b11 b12 b16 : Nat) : String :=
  "Response[" ++ toString msg_id ++ "]: " ++ flags
    ++ ", mode=" ++ acModeStr b2
    ++ ", setpoint=" ++ acSetpointStr b2
    ++ ", fanspeed=" ++ acFanSpeedStr b3
    ++ ", swing=" ++ acSwingStr b7
    ++ ", indoor T=" ++ fmtIntHalf ((b11 : Int) - 50)
    ++ ", outdoor T=" ++ fmtIntHalf ((b12 : Int) - 50)
    ++ ", error code=" ++ toString b16

/-- `cmd_handler_0x02_0xac`: AC device control command.
`msg_body = read_data[MSG_BODY_OFFSET:-1]`, `msg_crc = read_data[-1]`,
`msg_id = msg_body[-1]`; a CRC8 mismatch emits only the `CRC8 failed`
error annotation. -/
def cmd_handler_0x02_0xac : Handler := fun rxtx read_data => do
  let msg_body := (read_data.drop MSG_BODY_OFFSET).dropLast
  let msg_crc ← read_data.getLast?
  let msg_id ← msg_body.getLast?
  if crc8 msg_body = msg_crc then
    if rxtx.val = 1 then do
      let b0 ← msg_body.get? 0
      if b0 &&& 0x40 ≠ 0 ∧ msg_body.length = 24 then do
        let b1 ← msg_body.get? 1
        let b2 ← msg_body.get? 2
        let b3 ← msg_body.get? 3
        let b7 ← msg_body.get? 7
        some [⟨6 + rxtx.val,
          [acControlText msg_id (acControlFlagsStr b1) b2 b3 b7,
           "0x02[" ++ toString msg_id ++ "]>"]⟩]
      else
        some [⟨6 + rxtx.val,
          ["Unknown control command[" ++ toString msg_id ++ "]",
           "<0x02[" ++ toString msg_id ++ "]"]⟩]
    else do
      let b0 ← msg_body.get? 0
      if b0 &&& 0xC0 ≠ 0 ∧ msg_body.length = 24 then do
        let b1 ← msg_body.get? 1
        let b2 ← msg_body.get? 2
        let b3 ← msg_body.get? 3
        let b7 ← msg_body.get? 7
        let b11 ← msg_body.get? 11
        let b12 ← msg_body.get? 12
        let b16 ← msg_body.get? 16
        some [⟨6 + rxtx.val,
          [acResponseText msg_id (acResponseFlagsStr b1) b2 b3 b7 b11 b12 b16,
           "<0x02[" ++ toString msg_id ++ "]"]⟩]
      else
        some [⟨6 + rxtx.val,
          ["Unknown response for AC control command",
           "<0x02[" ++ toString msg_id ++ "]"]⟩]
  else
    some [⟨8, ["CRC8 failed"]⟩]

/-- `cmd_handler_0x03`: generic device query command. -/
def cmd_handler_0x03 : Handler := fun rxtx _ =>
  if rxtx.val = 1 then
    some [⟨6 + rxtx.val, ["Device query command", "0x03>"]⟩]
  else
    some [⟨6 + rxtx.val, ["Response for Device query command", "<0x03"]⟩]

/-- `cmd_handler_0x03_0xac`: AC device query command
(`msg_body = read_data[MSG_BODY_OFFSET:]`, validated by `crc8 == 0`). -/
def cmd_handler_0x03_0xac : Handler := fun rxtx read_data =>
  let msg_body := read_data.drop MSG_BODY_OFFSET
  if crc8 msg_body = 0 then
    if rxtx.val = 1 then
      some [⟨6 + rxtx.val, ["AC query command", "0x03>"]⟩]
    else
      some [⟨6 + rxtx.val, ["Response for AC query command", "<0x03"]⟩]
  else
    some [⟨8, ["CRC8 failed"]⟩]

/-- `cmd_handler_0x07`. -/
def cmd_handler_0x07 : Handler := fun rxtx _ =>
  if rxtx.val = 1 then
    some [⟨6 + rxtx.val, ["Device electronic ID acquisition", "0x07>"]⟩]
  else
    some [⟨6 + rxtx.val, ["Response for Device electronic ID acquisition", "<0x07"]⟩]

/-- `cmd_handler_0x0d`. -/
def cmd_handler_0x0d : Handler := fun rxtx _ =>
  if rxtx.val = 1 then
    some [⟨6 + rxtx.val, ["Device networking notification", "0x0D"]⟩]
  else
    some [⟨8, ["Response not expected", "!0x0D"]⟩]

/-- `cmd_handler_0x11`. -/
def cmd_handler_0x11 : Handler := fun rxtx _ =>
  if rxtx.val = 1 then
    some [⟨6 + rxtx.val, ["Write device electronic ID", "0x11>"]⟩]
  else
    some [⟨6 + rxtx.val, ["Response for Write device electronic ID", "<0x11"]⟩]

/-- `cmd_handler_0x13`. -/
def cmd_handler_0x13 : Handler := fun rxtx _ =>
  if rxtx.val = 1 then
    some [⟨6 + rxtx.val, ["Read MAC address", "0x13>"]⟩]
  else
    some [⟨6 + rxtx.val, ["Response for Read MAC address", "<0x13"]⟩]

/-- `cmd_handler_0xa0`. -/
def cmd_handler_0xa0 : Handler := fun rxtx _ =>
  if rxtx.val = 1 then
    some [⟨6 + rxtx.val, ["Home appliance model and basic information query", "0xA0>"]⟩]
  else
    some [⟨6 + rxtx.val, ["Response for Home appliance model and basic information query", "<0xA0"]⟩]

/-- The `getattr(self, 'cmd_handler_0x{:02x}_0x{:02x}'...)` lookup: the
handlers registered for an exact (message type, appliance type) pair. -/
def findPairHandler (mt at_ : Nat) : Option Handler :=
  if mt = 0x02 ∧ at_ = 0xAC then some cmd_handler_0x02_0xac
  else if mt = 0x03 ∧ at_ = 0xAC then some cmd_handler_0x03_0xac
  else none

/-- The `getattr(self, 'cmd_handler_0x{:02x}'...)` lookup: the handlers
registered for a message type alone. -/
def findTypeHandler (mt : Nat) : Option Handler :=
  match mt with
  | 0x02 => some cmd_handler_0x02
  | 0x03 => some cmd_handler_0x03
  | 0x04 => some cmd_handler_0x04
  | 0x05 => some cmd_handler_0x05
  | 0x06 => some cmd_handler_0x06
  | 0x07 => some cmd_handler_0x07
  | 0x0a => some cmd_handler_0x0a
  | 0x0d => some cmd_handler_0x0d
  | 0x11 => some cmd_handler_0x11
  | 0x12 => some cmd_handler_0x12
  | 0x13 => some cmd_handler_0x13
  | 0x61 => some cmd_handler_0x61
  | 0x63 => some cmd_handler_0x63
  | 0x68 => some cmd_handler_0x68
  | 0x6a => some cmd_handler_0x6a
  | 0x6b => some cmd_handler_0x6b
  | 0x81 => some cmd_handler_0x81
  | 0x82 => some cmd_handler_0x82
  | 0x83 => some cmd_handler_0x83
  | 0xa0 => some cmd_handler_0xa0
  | _ => none

/-- The two chained `getattr(..., default)` lookups of `Decoder.decode`:
the pair-specific handler shadows the type handler, which shadows
`cmd_handler_default`. -/
def selectHandler (mt at_ : Nat) : Handler :=
  (findPairHandler mt at_).getD ((findTypeHandler mt).getD cmd_handler_default)

/-- The frame-completion tail of `Decoder.decode` (lines 148–163): the
message annotation, then either dispatch (checksum 0) or the
`Checksum failed` error annotation. -/
def completeFrame (rxtx : Fin 2) (data1 : List Nat) : Option (List Ann) := do
  let mt ← data1.get? MSG_TYPE_OFFSET
  let cs ← data1.getLast?
  let msgAnn : Ann :=
    ⟨2 + rxtx.val * 3,
     [msgStr mt (String.join (((data1.drop MSG_BODY_OFFSET).dropLast).map hex2)) cs]⟩
  if checksum data1 = 0 then do
    let at_ ← data1.get? APPLIANCE_TYPE_OFFSET
    let hAnns ← selectHandler mt at_ rxtx data1.dropLast
    some (msgAnn :: hAnns)
  else
    some [msgAnn, ⟨8, ["Checksum failed"]⟩]

/-- The header annotation emitted when `len(self.data[rxtx]) == HEADER_LENGTH`. -/
def headerAnnOf (rxtx : Fin 2) (data1 : List Nat) : Option Ann := do
  let l ← data1.get? LENGTH_OFFSET
  let at_ ← data1.get? APPLIANCE_TYPE_OFFSET
  let mid ← data1.get? MSG_ID_OFFSET
  let fw ← data1.get? FRAMEWORK_VERSION_OFFSET
  let av ← data1.get? APPLIANCE_VERSION_OFFSET
  some ⟨1 + rxtx.val * 3, [headerStr l at_ mid fw av]⟩

/-- One `Decoder.decode` call on a DATA byte for direction `rxtx`:
the byte is appended to the accumulated buffer whenever the state is not
`IDLE` (line 116–117), then the state branch runs.  The completion test
`len(self.data[rxtx]) == self.data[rxtx][LENGTH_OFFSET]` reads the head of
the (always non-empty) buffer. -/
def decodeByte (rxtx : Fin 2) (s : DirState) (b : Nat) : Option (DirState × List Ann) :=
  match s.state with
  | DecoderState.IDLE =>
    if b = 0xAA then
      some (⟨DecoderState.READ_HEADER, []⟩, [⟨0 + rxtx.val * 3, ["Sync"]⟩])
    else
      some (s, [])
  | DecoderState.READ_HEADER =>
    let data1 := s.data ++ [b]
    if data1.length = HEADER_LENGTH then
      (headerAnnOf rxtx data1).map (fun a => (⟨DecoderState.READ_MESSAGE, data1⟩, [a]))
    else
      some (⟨DecoderState.READ_HEADER, data1⟩, [])
  | DecoderState.READ_MESSAGE =>
    let data1 := s.data ++ [b]
    if data1.length = data1.headD 0 then
      (completeFrame rxtx data1).map (fun anns => (⟨DecoderState.IDLE, data1⟩, anns))
    else
      some (⟨DecoderState.READ_MESSAGE, data1⟩, [])

/-- Feed a byte list to one direction in isolation, collecting the
annotations in emission order. -/
def runDir (rxtx : Fin 2) : DirState → List Nat → Option (DirState × List Ann)
  | s, [] => some (s, [])
  | s, b :: bs =>
    match decodeByte rxtx s b with
    | none => none
    | some (s1, anns) =>
      match runDir rxtx s1 bs with
      | none => none
      | some (s2, anns') => some (s2, anns ++ anns')

/-- The decoder's full mutable state: one `DirState` per direction, as
initialized by `Decoder.reset`. -/
structure DecState where
  dir0 : DirState
  dir1 : DirState
  deriving DecidableEq, Repr

def decInit : DecState := ⟨dirInit, dirInit⟩

def getDir (s : DecState) (d : Fin 2) : DirState :=
  if d = 0 then s.dir0 else s.dir1

def setDir (s : DecState) (d : Fin 2) (x : DirState) : DecState :=
  if d = 0 then { s with dir0 := x } else { s with dir1 := x }

/-- Feed an arbitrary interleaving of tagged bytes, tagging every emitted
annotation with the direction of the byte that produced it. -/
def runPair : DecState → List (Fin 2 × Nat) → Option (DecState × List (Fin 2 × Ann))
  | s, [] => some (s, [])
  | s, (d, b) :: rest =>
    match decodeByte d (getDir s d) b with
    | none => none
    | some (s1, anns) =>
      match runPair (setDir s d s1) rest with
      | none => none
      | some (s2, outs) => some (s2, anns.map (fun a => (d, a)) ++ outs)

/-- The byte subsequence of one direction in an interleaved input. -/
def byteSubseq (d : Fin 2) (inputs : List (Fin 2 × Nat)) : List Nat :=
  (inputs.filter (fun p => p.1 == d)).map (fun p => p.2)

/-- The annotation subsequence of one direction in a tagged output. -/
def annSubseq (d : Fin 2) (outs : List (Fin 2 × Ann)) : List Ann :=
  (outs.filter (fun p => p.1 == d)).map (fun p => p.2)

/-- The checksum range the spec's §6 sentence literally names for claim
C2: offsets 1..N-1 glossed as "length byte through CRC8 byte, inclusive",
i.e. the accumulated frame bytes *without* the final checksum byte.
(Second definition written from the spec's words, to be compared with the
code's `checksum (data) = 0` gate.) -/
def specClaimedChecksumValid (data : List Nat) : Bool :=
  checksum data.dropLast == 0

/- ### Helper lemmas -/

theorem checksum_eq_zero_iff (l : List Nat) : checksum l = 0 ↔ l.sum % 256 = 0 := by
  unfold checksum
  omega

theorem headD_append_left {l l' : List Nat} (h : l ≠ []) (d : Nat) :
    (l ++ l').headD d = l.headD d := by
  cases l with
  | nil => exact absurd rfl h
  | cons a t => rfl

theorem getLast?_eq_getLastD {l : List Nat} (h : l ≠ []) :
    l.getLast? = some (l.getLastD 0) := by
  rw [List.getLastD_eq_getLast?]
  cases hl : l.getLast? with
  | none => exact absurd (List.getLast?_eq_none_iff.mp hl) h
  | some y => rfl

/-- Structure of the frame-completion tail: the message annotation comes
first, followed either by the dispatched handler's annotations (checksum
0) or by exactly the `Checksum failed` error annotation. -/
theorem completeFrame_shape (rxtx : Fin 2) (data1 : List Nat) (anns : List Ann)
    (h : completeFrame rxtx data1 = some anns) :
    ∃ m rest, anns = m :: rest ∧ m.row = 2 + rxtx.val * 3 ∧
      ((checksum data1 = 0 ∧
          ∃ mt at_ hAnns,
            data1.get? MSG_TYPE_OFFSET = some mt ∧
            data1.get? APPLIANCE_TYPE_OFFSET = some at_ ∧
            selectHandler mt at_ rxtx data1.dropLast = some hAnns ∧
            rest = hAnns) ∨
        (checksum data1 ≠ 0 ∧ rest = [⟨8, ["Checksum failed"]⟩])) := by
  unfold completeFrame at h
  cases hmt : data1.get? MSG_TYPE_OFFSET with
  | none => rw [hmt] at h; simp at h
  | some mt =>
  rw [hmt] at h
  cases hcs : data1.getLast? with
  | none => rw [hcs] at h; simp at h
  | some cs =>
  rw [hcs] at h
  simp only [Option.bind_eq_bind, Option.some_bind] at h
  by_cases hchk : checksum data1 = 0
  · rw [if_pos hchk] at h
    cases hat : data1.get? APPLIANCE_TYPE_OFFSET with
    | none => rw [hat] at h; simp at h
    | some at_ =>
    rw [hat] at h
    simp only [Option.some_bind] at h
    cases hsel : selectHandler mt at_ rxtx data1.dropLast with
    | none => rw [hsel] at h; simp at h
    | some hAnns =>
    rw [hsel] at h
    simp only [Option.bind_eq_bind, Option.some_bind] at h
    obtain rfl := Option.some_injective _ h
    exact ⟨_, hAnns, rfl, rfl, Or.inl ⟨hchk, mt, at_, hAnns, rfl, rfl, hsel, rfl⟩⟩
  · rw [if_neg hchk] at h
    obtain rfl := Option.some_injective _ h
    exact ⟨_, _, rfl, rfl, Or.inr ⟨hchk, rfl⟩⟩

/-- The `READ_MESSAGE` branch of `decodeByte`, written out. -/
theorem decodeByte_read_message (rxtx : Fin 2) (s : DirState) (b : Nat)
    (hs : s.state = DecoderState.READ_MESSAGE) :
    decodeByte rxtx s b =
      (if (s.data ++ [b]).length = (s.data ++ [b]).headD 0 then
        (completeFrame rxtx (s.data ++ [b])).map
          (fun anns => (⟨DecoderState.IDLE, s.data ++ [b]⟩, anns))
      else
        some (⟨DecoderState.READ_MESSAGE, s.data ++ [b]⟩, [])) := by
  obtain ⟨st, d⟩ := s
  cases hs
  rfl

/-- Once in `READ_MESSAGE` with a declared length that the accumulated
byte count has already reached or passed, the completion test
`len(data) == data[0]` can never fire again: the machine stays in
`READ_MESSAGE` for every further input. -/
theorem read_message_stuck (rxtx : Fin 2) (bytes : List Nat) :
    ∀ (s : DirState), s.state = DecoderState.READ_MESSAGE → s.data ≠ [] →
      s.data.headD 0 ≤ s.data.length →
      ∀ out, runDir rxtx s bytes = some out →
        out.1.state = DecoderState.READ_MESSAGE ∧ out.1.data ≠ [] ∧
          out.1.data.headD 0 ≤ out.1.data.length := by
  induction bytes with
  | nil =>
    intro s hs hne hle out h
    simp only [runDir] at h
    obtain rfl := Option.some_injective _ h
    exact ⟨hs, hne, hle⟩
  | cons b bs ih =>
    intro s hs hne hle out h
    have hstep : decodeByte rxtx s b = some (⟨DecoderState.READ_MESSAGE, s.data ++ [b]⟩, []) := by
      rw [decodeByte_read_message rxtx s b hs, if_neg]
      rw [headD_append_left hne]
      simp only [List.length_append, List.length_singleton]
      omega
    simp only [runDir, hstep] at h
    cases hrun : runDir rxtx ⟨DecoderState.READ_MESSAGE, s.data ++ [b]⟩ bs with
    | none => rw [hrun] at h; simp at h
    | some pr =>
    obtain ⟨s2, anns2⟩ := pr
    rw [hrun] at h
    obtain rfl := Option.some_injective _ h
    have := ih ⟨DecoderState.READ_MESSAGE, s.data ++ [b]⟩ rfl (by simp)
      (by rw [headD_append_left hne]
          simp only [List.length_append, List.length_singleton]
          omega)
      (s2, anns2) hrun
    exact this

/- ### C3: frame completion condition -/

/-- C3 (confirmed): while collecting a frame (state `READ_MESSAGE`), the
machine returns to `Idle` exactly when the byte count accumulated since
the sync byte (sync excluded) equals the declared length value (the head
of the buffer), and at that point the frame is processed: the message
annotation of the frame's direction is emitted. -/
theorem frame_completion_iff (rxtx : Fin 2) (s : DirState) (b : Nat)
    (st' : DirState) (anns : List Ann)
    (hs : s.state = DecoderState.READ_MESSAGE)
    (hd : decodeByte rxtx s b = some (st', anns)) :
    (st'.state = DecoderState.IDLE ↔
      (s.data ++ [b]).length = (s.data ++ [b]).headD 0) ∧
    ((s.data ++ [b]).length = (s.data ++ [b]).headD 0 →
      ∃ m rest, anns = m :: rest ∧ m.row = 2 + rxtx.val * 3) := by
  rw [decodeByte_read_message rxtx s b hs] at hd
  by_cases hc : (s.data ++ [b]).length = (s.data ++ [b]).headD 0
  · rw [if_pos hc] at hd
    cases hcf : completeFrame rxtx (s.data ++ [b]) with
    | none => rw [hcf] at hd; simp at hd
    | some anns0 =>
    rw [hcf] at hd
    simp only [Option.map_some', Option.some.injEq, Prod.mk.injEq] at hd
    obtain ⟨h1, rfl⟩ := hd
    obtain ⟨m, rest, rfl, hrow, -⟩ := completeFrame_shape rxtx _ anns0 hcf
    refine ⟨?_, fun _ => ⟨m, rest, rfl, hrow⟩⟩
    rw [← h1]
    simp [hc]
  · rw [if_neg hc] at hd
    simp only [Option.some.injEq, Prod.mk.injEq] at hd
    obtain ⟨h1, rfl⟩ := hd
    subst h1
    exact ⟨iff_of_false (by simp) hc, fun hcc => absurd hcc hc⟩

/- ### C5: no mid-frame resynchronization -/

/-- C5 (confirmed): any byte — in particular a stray `0xAA` — arriving
while the direction is not `Idle` is consumed as ordinary frame data: it
is appended to the accumulated buffer, which is therefore never reset,
and no new frame is started; only a `0xAA` observed in `Idle` begins a
frame (a non-sync byte in `Idle` is discarded entirely). -/
theorem sync_only_in_idle (rxtx : Fin 2) (s : DirState) (b : Nat) :
    (s.state ≠ DecoderState.IDLE →
      ∀ st' anns, decodeByte rxtx s b = some (st', anns) →
        st'.data = s.data ++ [b] ∧ st'.data ≠ []) ∧
    (s.state = DecoderState.IDLE → b ≠ 0xAA →
      decodeByte rxtx s b = some (s, [])) ∧
    (s.state = DecoderState.IDLE →
      decodeByte rxtx s 0xAA =
        some (⟨DecoderState.READ_HEADER, []⟩, [⟨0 + rxtx.val * 3, ["Sync"]⟩])) := by
  obtain ⟨st, d⟩ := s
  refine ⟨?_, ?_, ?_⟩
  · intro hne st' anns hd
    cases st with
    | IDLE => exact absurd rfl hne
    | READ_HEADER =>
      simp only [decodeByte] at hd
      by_cases hlen : (d ++ [b]).length = HEADER_LENGTH
      · rw [if_pos hlen] at hd
        cases hha : headerAnnOf rxtx (d ++ [b]) with
        | none => rw [hha] at hd; simp at hd
        | some a =>
        rw [hha] at hd
        simp only [Option.map_some', Option.some.injEq, Prod.mk.injEq] at hd
        obtain ⟨h1, -⟩ := hd
        rw [← h1]
        simp
      · rw [if_neg hlen] at hd
        simp only [Option.some.injEq, Prod.mk.injEq] at hd
        obtain ⟨h1, -⟩ := hd
        rw [← h1]
        simp
    | READ_MESSAGE =>
      simp only [decodeByte] at hd
      by_cases hc : (d ++ [b]).length = (d ++ [b]).headD 0
      · rw [if_pos hc] at hd
        cases hcf : completeFrame rxtx (d ++ [b]) with
        | none => rw [hcf] at hd; simp at hd
        | some anns0 =>
        rw [hcf] at hd
        simp only [Option.map_some', Option.some.injEq, Prod.mk.injEq] at hd
        obtain ⟨h1, -⟩ := hd
        rw [← h1]
        simp
      · rw [if_neg hc] at hd
        simp only [Option.some.injEq, Prod.mk.injEq] at hd
        obtain ⟨h1, -⟩ := hd
        rw [← h1]
        simp
  · intro hst hb
    cases hst
    simp [decodeByte, hb]
  · intro hst
    cases hst
    simp [decodeByte]

/- ### C1 (corrected): checksum failure suppresses dispatch -/

/-- C1, amended: a checksum mismatch does not merely add an error
annotation — it suppresses interpretation entirely.  On a structurally
complete frame with nonzero checksum the decoder emits exactly the
message annotation followed by the `Checksum failed` error annotation and
never an interpreted-command annotation (lane `6 + rxtx`); the dispatcher
runs only when the checksum reduces to 0. -/
theorem checksum_failure_suppresses_dispatch (rxtx : Fin 2) (s : DirState) (b : Nat)
    (st' : DirState) (anns : List Ann)
    (hs : s.state = DecoderState.READ_MESSAGE)
    (hd : decodeByte rxtx s b = some (st', anns))
    (hc : (s.data ++ [b]).length = (s.data ++ [b]).headD 0) :
    (checksum (s.data ++ [b]) ≠ 0 →
      (∃ m, anns = [m, ⟨8, ["Checksum failed"]⟩] ∧ m.row = 2 + rxtx.val * 3) ∧
      ∀ a ∈ anns, a.row ≠ 6 + rxtx.val) ∧
    (checksum (s.data ++ [b]) = 0 →
      ∃ m mt at_ hAnns,
        (s.data ++ [b]).get? MSG_TYPE_OFFSET = some mt ∧
        (s.data ++ [b]).get? APPLIANCE_TYPE_OFFSET = some at_ ∧
        selectHandler mt at_ rxtx (s.data ++ [b]).dropLast = some hAnns ∧
        anns = m :: hAnns) := by
  rw [decodeByte_read_message rxtx s b hs, if_pos hc] at hd
  cases hcf : completeFrame rxtx (s.data ++ [b]) with
  | none => rw [hcf] at hd; simp at hd
  | some anns0 =>
  rw [hcf] at hd
  simp only [Option.map_some', Option.some.injEq, Prod.mk.injEq] at hd
  obtain ⟨-, rfl⟩ := hd
  obtain ⟨m, rest, rfl, hrow, hcase⟩ := completeFrame_shape rxtx _ anns0 hcf
  have hlt : rxtx.val < 2 := rxtx.isLt
  constructor
  · intro hbad
    cases hcase with
    | inl hgood => exact absurd hgood.1 hbad
    | inr herr =>
      obtain ⟨-, rfl⟩ := herr
      refine ⟨⟨m, rfl, hrow⟩, ?_⟩
      intro a ha
      simp only [List.mem_cons, List.mem_singleton, List.not_mem_nil, or_false] at ha
      rcases ha with rfl | rfl
      · omega
      · show ¬(8 = 6 + rxtx.val)
        omega
  · intro hzero
    cases hcase with
    | inl hgood =>
      obtain ⟨-, mt, at_, hAnns, hmt, hat, hsel, hrest⟩ := hgood
      exact ⟨m, mt, at_, hAnns, hmt, hat, hsel, by rw [hrest]⟩
    | inr herr => exact absurd hzero herr.1

/- ### C2 (corrected): checksum validity range -/

/-- C2, amended: the frame is treated as checksum-valid — and handed to
the dispatcher — iff `checksum` over *all* accumulated bytes, the length
byte through the final checksum byte inclusive (frame offsets 1..N, not
stopping at the CRC8 byte), is 0, equivalently iff the sum of those bytes
mod 256 is 0, where `checksum(bytes) = (-sum(bytes)) mod 256`. -/
theorem checksum_valid_range (rxtx : Fin 2) (s : DirState) (b : Nat)
    (st' : DirState) (anns : List Ann)
    (hs : s.state = DecoderState.READ_MESSAGE)
    (hd : decodeByte rxtx s b = some (st', anns))
    (hc : (s.data ++ [b]).length = (s.data ++ [b]).headD 0) :
    (checksum (s.data ++ [b]) = 0 ↔ (s.data ++ [b]).sum % 256 = 0) ∧
    ((s.data ++ [b]).sum % 256 = 0 →
      ∃ m mt at_ hAnns,
        selectHandler mt at_ rxtx (s.data ++ [b]).dropLast = some hAnns ∧
        anns = m :: hAnns) ∧
    ((s.data ++ [b]).sum % 256 ≠ 0 →
      ∃ m, anns = [m, ⟨8, ["Checksum failed"]⟩]) := by
  rw [decodeByte_read_message rxtx s b hs, if_pos hc] at hd
  cases hcf : completeFrame rxtx (s.data ++ [b]) with
  | none => rw [hcf] at hd; simp at hd
  | some anns0 =>
  rw [hcf] at hd
  simp only [Option.map_some', Option.some.injEq, Prod.mk.injEq] at hd
  obtain ⟨-, rfl⟩ := hd
  obtain ⟨m, rest, rfl, -, hcase⟩ := completeFrame_shape rxtx _ anns0 hcf
  refine ⟨checksum_eq_zero_iff _, ?_, ?_⟩
  · intro hzero
    have hzero' : checksum (s.data ++ [b]) = 0 := (checksum_eq_zero_iff _).mpr hzero
    cases hcase with
    | inl hgood =>
      obtain ⟨-, mt, at_, hAnns, -, -, hsel, hrest⟩ := hgood
      exact ⟨m, mt, at_, hAnns, hsel, by rw [hrest]⟩
    | inr herr => exact absurd hzero' herr.1
  · intro hbad
    have hbad' : checksum (s.data ++ [b]) ≠ 0 := fun h0 =>
      hbad ((checksum_eq_zero_iff _).mp h0)
    cases hcase with
    | inl hgood => exact absurd hgood.1 hbad'
    | inr herr => exact ⟨m, by rw [herr.2]⟩

/- ### C4 (corrected): no underflow guard for degenerate lengths -/

/-- C4, amended: the reassembler has *no* underflow guard.  When the
declared length is at most the fixed-header size (8), the completion test
`len(data) == data[0]` can never be satisfied once the machine is in
`READ_MESSAGE` (the count is already ≥ 8 and only grows), so the frame
never completes and the direction's state machine never returns to
`Idle`, however many further bytes arrive. -/
theorem no_underflow_guard (rxtx : Fin 2) (L : Nat) (hL : L ≤ HEADER_LENGTH)
    (hdr : List Nat) (h7 : hdr.length = 7) (bytes : List Nat)
    (out : DirState × List Ann)
    (h : runDir rxtx ⟨DecoderState.READ_MESSAGE, L :: hdr⟩ bytes = some out) :
    out.1.state = DecoderState.READ_MESSAGE := by
  have hle : (L :: hdr).headD 0 ≤ (L :: hdr).length := by
    simp only [List.headD_cons, List.length_cons, h7]
    simp only [HEADER_LENGTH] at hL
    omega
  exact (read_message_stuck rxtx bytes ⟨DecoderState.READ_MESSAGE, L :: hdr⟩ rfl
    (by simp) hle out h).1

/- ### C7: handler dispatch precedence -/

/-- C7 (confirmed): for every checksum-valid frame the handler is chosen
with the precedence: exact `(messageType, applianceType)` pair first,
then `messageType` alone, then the generic default handler. -/
theorem handler_precedence (mt at_ : Nat) :
    (∀ h, findPairHandler mt at_ = some h → selectHandler mt at_ = h) ∧
    (findPairHandler mt at_ = none →
      ∀ h, findTypeHandler mt = some h → selectHandler mt at_ = h) ∧
    (findPairHandler mt at_ = none → findTypeHandler mt = none →
      selectHandler mt at_ = cmd_handler_default) := by
  refine ⟨?_, ?_, ?_⟩
  · intro h hp
    simp [selectHandler, hp]
  · intro hp h ht
    simp [selectHandler, hp, ht]
  · intro hp ht
    simp [selectHandler, hp, ht]

/-- Witness for C7: the AC control pair beats the generic 0x02 handler,
an unpaired appliance type falls back to the 0x02 type handler, and an
unregistered type falls back to the default handler. -/
theorem handler_precedence_witness :
    selectHandler 0x02 0xAC = cmd_handler_0x02_0xac ∧
    selectHandler 0x02 0x00 = cmd_handler_0x02 ∧
    selectHandler 0x99 0xAC = cmd_handler_default :=
  ⟨(handler_precedence 0x02 0xAC).1 cmd_handler_0x02_0xac rfl,
   (handler_precedence 0x02 0x00).2.1 rfl cmd_handler_0x02 rfl,
   (handler_precedence 0x99 0xAC).2.2 rfl rfl⟩

/- ### C6: direction isolation -/

theorem getDir_setDir_same (s : DecState) (d : Fin 2) (x : DirState) :
    getDir (setDir s d x) d = x := by
  by_cases hd : d = 0 <;> simp [getDir, setDir, hd]

theorem getDir_setDir_other (s : DecState) (d d' : Fin 2) (x : DirState)
    (h : d' ≠ d) : getDir (setDir s d x) d' = getDir s d' := by
  fin_cases d <;> fin_cases d' <;> simp_all [getDir, setDir]

theorem byteSubseq_cons_self (d : Fin 2) (b : Nat) (rest : List (Fin 2 × Nat)) :
    byteSubseq d ((d, b) :: rest) = b :: byteSubseq d rest := by
  simp [byteSubseq, List.filter_cons]

theorem byteSubseq_cons_other (d d0 : Fin 2) (b : Nat) (rest : List (Fin 2 × Nat))
    (h : d0 ≠ d) : byteSubseq d ((d0, b) :: rest) = byteSubseq d rest := by
  simp [byteSubseq, List.filter_cons, h]

theorem annSubseq_append (d : Fin 2) (xs ys : List (Fin 2 × Ann)) :
    annSubseq d (xs ++ ys) = annSubseq d xs ++ annSubseq d ys := by
  simp [annSubseq, List.filter_append]

theorem annSubseq_map_self (d : Fin 2) (anns : List Ann) :
    annSubseq d (anns.map (fun a => (d, a))) = anns := by
  induction anns with
  | nil => rfl
  | cons a t ih =>
    simp only [annSubseq, List.map_cons, List.filter_cons] at ih ⊢
    simp_all

theorem annSubseq_map_other (d d0 : Fin 2) (anns : List Ann) (h : d0 ≠ d) :
    annSubseq d (anns.map (fun a => (d0, a))) = [] := by
  induction anns with
  | nil => rfl
  | cons a t ih =>
    simp only [annSubseq, List.map_cons, List.filter_cons] at ih ⊢
    simp_all

/-- C6 (confirmed): each input byte updates only its own direction's parse
state, so for any interleaving of the two directions' byte streams the
per-direction decode (final state and annotation subsequence) equals the
decode of that direction's byte subsequence in isolation. -/
theorem direction_isolation (inputs : List (Fin 2 × Nat)) :
    ∀ (s s' : DecState) (outs : List (Fin 2 × Ann)),
      runPair s inputs = some (s', outs) →
      ∀ d : Fin 2,
        runDir d (getDir s d) (byteSubseq d inputs) =
          some (getDir s' d, annSubseq d outs) := by
  induction inputs with
  | nil =>
    intro s s' outs h d
    simp only [runPair, Option.some.injEq, Prod.mk.injEq] at h
    obtain ⟨rfl, rfl⟩ := h
    simp [runDir, byteSubseq, annSubseq]
  | cons p rest ih =>
    obtain ⟨d0, b⟩ := p
    intro s s' outs h d
    simp only [runPair] at h
    cases h1 : decodeByte d0 (getDir s d0) b with
    | none => rw [h1] at h; simp at h
    | some pr =>
    obtain ⟨s1, anns⟩ := pr
    rw [h1] at h
    simp only at h
    cases h2 : runPair (setDir s d0 s1) rest with
    | none => rw [h2] at h; simp at h
    | some pr2 =>
    obtain ⟨s2, outs1⟩ := pr2
    rw [h2] at h
    simp only [Option.some.injEq, Prod.mk.injEq] at h
    obtain ⟨rfl, rfl⟩ := h
    have IH := ih (setDir s d0 s1) s2 outs1 h2 d
    by_cases hd : d = d0
    · subst hd
      rw [byteSubseq_cons_self, annSubseq_append, annSubseq_map_self]
      rw [getDir_setDir_same] at IH
      simp only [runDir, h1, IH]
    · rw [byteSubseq_cons_other _ _ _ _ (Ne.symm hd),
        annSubseq_append, annSubseq_map_other _ _ _ (Ne.symm hd)]
      rw [getDir_setDir_other _ _ _ _ hd] at IH
      simpa using IH

/- ### C9 (corrected): unknown enum rendering -/

/-- C9, amended: only the operating-mode enum renders unknown values as
`"unknown(<n>)"`; an unregistered fan-speed value renders as the bare
decimal string `"<n>"`.  Neither lookup can fail: both fall back to a
default string. -/
theorem unknown_enum_fallbacks (m f : Nat)
    (hm : ac_mode_str ((m &&& 0xE0) >>> 5) = none)
    (hf : ac_fan_speed_str f = none) :
    acModeStr m = "unknown(" ++ toString ((m &&& 0xE0) >>> 5) ++ ")" ∧
    acFanSpeedStr f = toString f := by
  constructor
  · simp [acModeStr, hm]
  · simp [acFanSpeedStr, hf]

/- ### C8 (corrected): AC control decode of mode/setpoint -/

/-- C8, amended: both the operating mode and the setpoint are decoded
from the *same* body byte, `msg_body[2]`.  A CRC8-valid module→appliance
AC control frame with a 24-byte body whose bytes begin
`[0x40, 0x20, 0x28, ...]` (not `[0x40, 0x20, 0x01, 0x28, ...]`) decodes
to mode `"auto"` (`(0x28 & 0xE0) >> 5 = 1`) and setpoint `24.00`
(`(0x28 & 0x0F) + 16 = 24`, half-degree bit `0x10` clear). -/
theorem ac_control_mode_setpoint (pre : List Nat) (hpre : pre.length = 9)
    (b3 x4 x5 x6 b7 : Nat) (rest2 : List Nat) (h16 : rest2.length = 16) :
    cmd_handler_0x02_0xac 1
      (pre ++ (([0x40, 0x20, 0x28, b3, x4, x5, x6, b7] ++ rest2)
        ++ [crc8 ([0x40, 0x20, 0x28, b3, x4, x5, x6, b7] ++ rest2)])) =
      some [⟨7, [acControlText (rest2.getLastD 0) (acControlFlagsStr 0x20) 0x28 b3 b7,
                 "0x02[" ++ toString (rest2.getLastD 0) ++ "]>"]⟩] ∧
    acModeStr 0x28 = "auto" ∧ acSetpointStr 0x28 = "24.00" := by
  refine ⟨?_, rfl, rfl⟩
  have hrest2ne : rest2 ≠ [] := by
    intro hh
    rw [hh] at h16
    simp at h16
  have hbody :
      ((pre ++ (([0x40, 0x20, 0x28, b3, x4, x5, x6, b7] ++ rest2)
          ++ [crc8 ([0x40, 0x20, 0x28, b3, x4, x5, x6, b7] ++ rest2)])).drop
            MSG_BODY_OFFSET).dropLast
        = [0x40, 0x20, 0x28, b3, x4, x5, x6, b7] ++ rest2 := by
    rw [List.drop_left' (by rw [hpre]; rfl), List.dropLast_concat]
  have hlast :
      (pre ++ (([0x40, 0x20, 0x28, b3, x4, x5, x6, b7] ++ rest2)
          ++ [crc8 ([0x40, 0x20, 0x28, b3, x4, x5, x6, b7] ++ rest2)])).getLast?
        = some (crc8 ([0x40, 0x20, 0x28, b3, x4, x5, x6, b7] ++ rest2)) := by
    rw [← List.append_assoc]
    exact List.getLast?_concat _
  have hid : ([0x40, 0x20, 0x28, b3, x4, x5, x6, b7] ++ rest2).getLast?
      = some (rest2.getLastD 0) := by
    rw [List.getLast?_append, getLast?_eq_getLastD hrest2ne]
    rfl
  have hlen24 : ([0x40, 0x20, 0x28, b3, x4, x5, x6, b7] ++ rest2).length = 24 := by
    simp [h16]
  have hget1 : ([0x40, 0x20, 0x28, b3, x4, x5, x6, b7] ++ rest2).get? 1 = some 0x20 := rfl
  have hget2 : ([0x40, 0x20, 0x28, b3, x4, x5, x6, b7] ++ rest2).get? 2 = some 0x28 := rfl
  have hget3 : ([0x40, 0x20, 0x28, b3, x4, x5, x6, b7] ++ rest2).get? 3 = some b3 := rfl
  have hget7 : ([0x40, 0x20, 0x28, b3, x4, x5, x6, b7] ++ rest2).get? 7 = some b7 := rfl
  simp only [cmd_handler_0x02_0xac, hbody, hlast, hid, Option.bind_eq_bind,
    Option.some_bind]
  rw [if_pos trivial, if_pos (show ((1 : Fin 2) : Nat) = 1 from rfl),
    show ([0x40, 0x20, 0x28, b3, x4, x5, x6, b7] ++ rest2).get? 0 = some 0x40 from rfl]
  simp only [Option.some_bind]
  rw [if_pos (⟨by decide, hlen24⟩ : (0x40 &&& 0x40 ≠ 0) ∧ _)]
  rw [hget1]
  simp only [Option.some_bind]
  rw [hget2]
  simp only [Option.some_bind]
  rw [hget3]
  simp only [Option.some_bind]
  rw [hget7]
  simp only [Option.some_bind]
  rfl

/- ### C10: network-status handler body bounds -/

/-- C10 (confirmed): the MA-direction 0x63 interpreter indexes the message
body at offsets 0–11 unconditionally, so it completes without an
out-of-range access iff the frame carries at least 12 body bytes,
equivalently iff the dispatched `read_data` (the frame bytes without the
trailing checksum) holds at least 21 bytes, i.e. declared length ≥ 22;
on any shorter body the fallible embedding returns `none` (the
out-of-range branch is reached). -/
theorem network_status_body_bounds (read_data : List Nat) :
    ((cmd_handler_0x63 1 read_data).isSome ↔
      12 ≤ (read_data.drop MSG_BODY_OFFSET).length) ∧
    ((cmd_handler_0x63 1 read_data).isSome ↔ 21 ≤ read_data.length) := by
  have key : (cmd_handler_0x63 1 read_data).isSome ↔
      12 ≤ (read_data.drop MSG_BODY_OFFSET).length := by
    constructor
    · intro hs
      by_contra hlt
      push_neg at hlt
      have hnone : cmd_handler_0x63 1 read_data = none := by
        simp only [cmd_handler_0x63]
        rw [if_neg (by decide)]
        generalize read_data.drop MSG_BODY_OFFSET = body at hlt ⊢
        rcases body with _|⟨a0,_|⟨a1,_|⟨a2,_|⟨a3,_|⟨a4,_|⟨a5,_|⟨a6,_|⟨a7,_|⟨a8,_|⟨a9,_|⟨a10,_|⟨a11,t⟩⟩⟩⟩⟩⟩⟩⟩⟩⟩⟩⟩
        all_goals first
          | rfl
          | (exfalso
             simp only [List.length_cons, List.length_nil] at hlt
             omega)
      rw [hnone] at hs
      simp at hs
    · intro h12
      simp only [cmd_handler_0x63]
      rw [if_neg (by decide)]
      generalize read_data.drop MSG_BODY_OFFSET = body at h12 ⊢
      rcases body with _|⟨a0,_|⟨a1,_|⟨a2,_|⟨a3,_|⟨a4,_|⟨a5,_|⟨a6,_|⟨a7,_|⟨a8,_|⟨a9,_|⟨a10,_|⟨a11,t⟩⟩⟩⟩⟩⟩⟩⟩⟩⟩⟩⟩
      all_goals first
        | rfl
        | (exfalso
           simp only [List.length_cons, List.length_nil] at h12
           omega)
  have hlen : 12 ≤ (read_data.drop MSG_BODY_OFFSET).length ↔ 21 ≤ read_data.length := by
    rw [List.length_drop, show MSG_BODY_OFFSET = 9 from rfl]
    omega
  exact ⟨key, key.trans hlen⟩

/- ### Counterexamples -/

/-- C1 counterexample: a structurally complete direction-1 frame with a
deliberately wrong checksum emits the sync/header/message annotations and
the `Checksum failed` error — but *no* interpreted-command annotation
(lanes 6/7): the dispatcher was suppressed, contradicting the claim. -/
theorem checksum_failure_cex :
    runDir 1 dirInit [0xAA, 10, 172, 0, 0, 0, 0, 0, 0, 0x99, 0] =
      some (⟨DecoderState.IDLE, [10, 172, 0, 0, 0, 0, 0, 0, 0x99, 0]⟩,
        [⟨3, ["Sync"]⟩, ⟨4, ["L: 10, At: AC, Mid:00, v:0000"]⟩,
         ⟨5, ["Type: 99, , Checksum: 00"]⟩, ⟨8, ["Checksum failed"]⟩]) ∧
    ([(⟨3, ["Sync"]⟩ : Ann), ⟨4, ["L: 10, At: AC, Mid:00, v:0000"]⟩,
      ⟨5, ["Type: 99, , Checksum: 00"]⟩, ⟨8, ["Checksum failed"]⟩].all
        (fun a => a.row != 6 && a.row != 7)) = true := by
  constructor
  · rfl
  · decide

/-- C2 counterexample: on this structurally complete frame the checksum
over the spec's claimed range (length byte through the CRC8 byte, i.e.
all bytes *except* the final checksum byte) is 0, yet the code refuses
the frame — it sums through the final byte, finds a nonzero residue,
emits `Checksum failed`, and never hands the frame to the dispatcher. -/
theorem checksum_range_cex :
    specClaimedChecksumValid [10, 172, 0, 0, 0, 0, 0, 0, 74, 1] = true ∧
    checksum [10, 172, 0, 0, 0, 0, 0, 0, 74, 1] ≠ 0 ∧
    runDir 1 dirInit [0xAA, 10, 172, 0, 0, 0, 0, 0, 0, 74, 1] =
      some (⟨DecoderState.IDLE, [10, 172, 0, 0, 0, 0, 0, 0, 74, 1]⟩,
        [⟨3, ["Sync"]⟩, ⟨4, ["L: 10, At: AC, Mid:00, v:0000"]⟩,
         ⟨5, ["Type: 4A, , Checksum: 01"]⟩, ⟨8, ["Checksum failed"]⟩]) ∧
    ([(⟨3, ["Sync"]⟩ : Ann), ⟨4, ["L: 10, At: AC, Mid:00, v:0000"]⟩,
      ⟨5, ["Type: 4A, , Checksum: 01"]⟩, ⟨8, ["Checksum failed"]⟩].all
        (fun a => a.row != 6 && a.row != 7)) = true := by
  refine ⟨by decide, by decide, ?_, by decide⟩
  rfl

/-- C4 counterexample: a frame declaring length 5 (< 8).  After the sync
byte and the 8 header bytes the machine sits in `READ_MESSAGE`, and no
continuation of the input — of any finite length — ever returns this
direction to `Idle`: the frame never completes. -/
theorem no_underflow_guard_cex :
    (runDir 0 dirInit [0xAA, 5, 0, 0, 0, 0, 0, 0, 0]).map (fun p => p.1) =
      some ⟨DecoderState.READ_MESSAGE, [5, 0, 0, 0, 0, 0, 0, 0]⟩ ∧
    ¬ ∃ bytes out,
        runDir 0 ⟨DecoderState.READ_MESSAGE, [5, 0, 0, 0, 0, 0, 0, 0]⟩ bytes = some out ∧
          out.1.state = DecoderState.IDLE := by
  constructor
  · rfl
  · rintro ⟨bytes, out, hrun, hidle⟩
    have hstuck := (read_message_stuck 0 bytes ⟨DecoderState.READ_MESSAGE, [5, 0, 0, 0, 0, 0, 0, 0]⟩
      rfl (by decide) (by decide) out hrun).1
    rw [hidle] at hstuck
    exact DecoderState.noConfusion hstuck

set_option maxRecDepth 8192 in
/-- C8 counterexample: the spec scenario's exact body bytes
`[0x40, 0x20, 0x01, 0x28, ...]` (24-byte CRC8-valid body) decode to mode
`unknown(0)` and setpoint `17.00` — not `auto`/`24.00` — because the code
reads both fields from `msg_body[2]`, which here is `0x01`. -/
theorem ac_control_scenario_cex :
    cmd_handler_0x02_0xac 1
      [0, 0, 0, 0, 0, 0, 0, 0, 0,
       0x40, 0x20, 0x01, 0x28, 0, 0, 0, 0, 0, 0, 0, 0, 0, 0, 0, 0, 0, 0, 0, 0, 0, 0, 0, 0,
       167] =
      some [⟨7, ["Control command[0]: fastCheckActive, off, mode=unknown(0), setpoint=17.00, fanspeed=low, swing=horizontal off,vertical off",
                 "0x02[0]>"]⟩] ∧
    acModeStr 0x01 ≠ "auto" ∧ acSetpointStr 0x01 ≠ "24.00" := by
  refine ⟨?_, by decide, by decide⟩
  rfl

set_option maxRecDepth 8192 in
/-- C9 counterexample: an unregistered fan-speed value (99) renders in
the emitted AC control annotation as the bare string `"99"`, not as
`"unknown(99)"` as the claim states for all enum-coded fields. -/
theorem unknown_fan_speed_cex :
    cmd_handler_0x02_0xac 1
      [0, 0, 0, 0, 0, 0, 0, 0, 0,
       0x40, 0x20, 0x28, 99, 0, 0, 0, 0, 0, 0, 0, 0, 0, 0, 0, 0, 0, 0, 0, 0, 0, 0, 0, 0,
       119] =
      some [⟨7, ["Control command[0]: fastCheckActive, off, mode=auto, setpoint=24.00, fanspeed=99, swing=horizontal off,vertical off",
                 "0x02[0]>"]⟩] ∧
    acFanSpeedStr 99 = "99" ∧
    acFanSpeedStr 99 ≠ "unknown(" ++ toString 99 ++ ")" := by
  refine ⟨?_, by decide, by decide⟩
  rfl

/- ### Witnesses -/

/-- Witness for C1's amended theorem at a concrete bad-checksum frame. -/
theorem checksum_failure_suppresses_dispatch_witness :
    (∃ m, ([(⟨5, ["Type: 99, , Checksum: 00"]⟩ : Ann), ⟨8, ["Checksum failed"]⟩] : List Ann) =
        [m, ⟨8, ["Checksum failed"]⟩] ∧ m.row = 2 + (1 : Fin 2).val * 3) ∧
    ∀ a ∈ ([(⟨5, ["Type: 99, , Checksum: 00"]⟩ : Ann), ⟨8, ["Checksum failed"]⟩] : List Ann),
      a.row ≠ 6 + (1 : Fin 2).val :=
  (checksum_failure_suppresses_dispatch 1
      ⟨DecoderState.READ_MESSAGE, [10, 172, 0, 0, 0, 0, 0, 0, 0x99]⟩ 0
      ⟨DecoderState.IDLE, [10, 172, 0, 0, 0, 0, 0, 0, 0x99, 0]⟩
      [⟨5, ["Type: 99, , Checksum: 00"]⟩, ⟨8, ["Checksum failed"]⟩]
      rfl (by decide) (by decide)).1 (by decide)

/-- Witness for C2's amended theorem at a concrete checksum-valid frame
(message type 0x4A, handled by the default handler). -/
theorem checksum_valid_range_witness :
    (checksum [10, 172, 0, 0, 0, 0, 0, 0, 74, 0] = 0 ↔
      ([10, 172, 0, 0, 0, 0, 0, 0, 74, 0] : List Nat).sum % 256 = 0) ∧
    (∃ m mt at_ hAnns,
      selectHandler mt at_ 1 ([10, 172, 0, 0, 0, 0, 0, 0, 74, 0] : List Nat).dropLast =
        some hAnns ∧
      ([(⟨5, ["Type: 4A, , Checksum: 00"]⟩ : Ann), ⟨7, ["msg type 0x4A", "0x4A"]⟩] : List Ann) =
        m :: hAnns) :=
  ⟨(checksum_valid_range 1 ⟨DecoderState.READ_MESSAGE, [10, 172, 0, 0, 0, 0, 0, 0, 74]⟩ 0
      ⟨DecoderState.IDLE, [10, 172, 0, 0, 0, 0, 0, 0, 74, 0]⟩
      [⟨5, ["Type: 4A, , Checksum: 00"]⟩, ⟨7, ["msg type 0x4A", "0x4A"]⟩]
      rfl (by decide) (by decide)).1,
   (checksum_valid_range 1 ⟨DecoderState.READ_MESSAGE, [10, 172, 0, 0, 0, 0, 0, 0, 74]⟩ 0
      ⟨DecoderState.IDLE, [10, 172, 0, 0, 0, 0, 0, 0, 74, 0]⟩
      [⟨5, ["Type: 4A, , Checksum: 00"]⟩, ⟨7, ["msg type 0x4A", "0x4A"]⟩]
      rfl (by decide) (by decide)).2.1 (by decide)⟩

/-- Witness for C3 at a concrete frame that completes on this byte. -/
theorem frame_completion_iff_witness :
    ((⟨DecoderState.IDLE, [10, 172, 0, 0, 0, 0, 0, 0, 74, 0]⟩ : DirState).state =
        DecoderState.IDLE ↔
      (([10, 172, 0, 0, 0, 0, 0, 0, 74] : List Nat) ++ [0]).length =
        (([10, 172, 0, 0, 0, 0, 0, 0, 74] : List Nat) ++ [0]).headD 0) ∧
    ((([10, 172, 0, 0, 0, 0, 0, 0, 74] : List Nat) ++ [0]).length =
        (([10, 172, 0, 0, 0, 0, 0, 0, 74] : List Nat) ++ [0]).headD 0 →
      ∃ m rest,
        ([(⟨5, ["Type: 4A, , Checksum: 00"]⟩ : Ann), ⟨7, ["msg type 0x4A", "0x4A"]⟩] : List Ann) =
          m :: rest ∧ m.row = 2 + (1 : Fin 2).val * 3) :=
  frame_completion_iff 1 ⟨DecoderState.READ_MESSAGE, [10, 172, 0, 0, 0, 0, 0, 0, 74]⟩ 0
    ⟨DecoderState.IDLE, [10, 172, 0, 0, 0, 0, 0, 0, 74, 0]⟩
    [⟨5, ["Type: 4A, , Checksum: 00"]⟩, ⟨7, ["msg type 0x4A", "0x4A"]⟩]
    rfl (by decide)

/-- Witness for C4's amended theorem: declared length 5, three further
bytes, still in `READ_MESSAGE`. -/
theorem no_underflow_guard_witness :
    ((⟨DecoderState.READ_MESSAGE, [5, 0, 0, 0, 0, 0, 0, 0, 1, 2, 3]⟩ : DirState),
        ([] : List Ann)).1.state = DecoderState.READ_MESSAGE :=
  no_underflow_guard 0 5 (by decide) [0, 0, 0, 0, 0, 0, 0] (by decide) [1, 2, 3]
    (⟨DecoderState.READ_MESSAGE, [5, 0, 0, 0, 0, 0, 0, 0, 1, 2, 3]⟩, [])
    (by decide)

/-- Witness for C5: a stray `0xAA` inside `READ_MESSAGE` is appended to
the buffer like any data byte. -/
theorem sync_only_in_idle_witness :
    (⟨DecoderState.READ_MESSAGE, [20, 1, 0xAA]⟩ : DirState).data = [20, 1] ++ [0xAA] ∧
    (⟨DecoderState.READ_MESSAGE, [20, 1, 0xAA]⟩ : DirState).data ≠ [] :=
  (sync_only_in_idle 0 ⟨DecoderState.READ_MESSAGE, [20, 1]⟩ 0xAA).1 (by decide)
    ⟨DecoderState.READ_MESSAGE, [20, 1, 0xAA]⟩ [] (by decide)

/-- Witness for C6 at a concrete interleaving of the two directions. -/
theorem direction_isolation_witness :
    runDir 0 (getDir decInit 0)
        (byteSubseq 0 [((0 : Fin 2), 0xAA), (1, 0xBB), (0, 0x0A), (1, 0xAA)]) =
      some (getDir ⟨⟨DecoderState.READ_HEADER, [0x0A]⟩, ⟨DecoderState.READ_HEADER, []⟩⟩ 0,
        annSubseq 0 [((0 : Fin 2), ⟨0, ["Sync"]⟩), (1, ⟨3, ["Sync"]⟩)]) :=
  direction_isolation [((0 : Fin 2), 0xAA), (1, 0xBB), (0, 0x0A), (1, 0xAA)] decInit
    ⟨⟨DecoderState.READ_HEADER, [0x0A]⟩, ⟨DecoderState.READ_HEADER, []⟩⟩
    [((0 : Fin 2), ⟨0, ["Sync"]⟩), (1, ⟨3, ["Sync"]⟩)] (by decide) 0

/-- Witness for C8's amended theorem at a fully concrete frame. -/
theorem ac_control_mode_setpoint_witness :
    cmd_handler_0x02_0xac 1
      ([0, 0, 0, 0, 0, 0, 0, 0, 0] ++
        (([0x40, 0x20, 0x28, 40, 0, 0, 0, 0] ++ [0, 0, 0, 0, 0, 0, 0, 0, 0, 0, 0, 0, 0, 0, 0, 0])
          ++ [crc8 ([0x40, 0x20, 0x28, 40, 0, 0, 0, 0] ++
                [0, 0, 0, 0, 0, 0, 0, 0, 0, 0, 0, 0, 0, 0, 0, 0])])) =
      some [⟨7, [acControlText
                  (([0, 0, 0, 0, 0, 0, 0, 0, 0, 0, 0, 0, 0, 0, 0, 0] : List Nat).getLastD 0)
                  (acControlFlagsStr 0x20) 0x28 40 0,
                 "0x02[" ++ toString
                  (([0, 0, 0, 0, 0, 0, 0, 0, 0, 0, 0, 0, 0, 0, 0, 0] : List Nat).getLastD 0)
                  ++ "]>"]⟩] ∧
    acModeStr 0x28 = "auto" ∧ acSetpointStr 0x28 = "24.00" :=
  ac_control_mode_setpoint [0, 0, 0, 0, 0, 0, 0, 0, 0] (by decide) 40 0 0 0 0
    [0, 0, 0, 0, 0, 0, 0, 0, 0, 0, 0, 0, 0, 0, 0, 0] (by decide)

/-- Witness for C9's amended theorem: mode value 0 is unregistered and
renders `unknown(0)`; fan-speed 99 is unregistered and renders `99`. -/
theorem unknown_enum_fallbacks_witness :
    acModeStr 0 = "unknown(" ++ toString ((0 &&& 0xE0) >>> 5) ++ ")" ∧
    acFanSpeedStr 99 = toString 99 :=
  unknown_enum_fallbacks 0 99 (by decide) (by decide)

/-- Witness for C10: a 21-byte `read_data` (12 body bytes) completes; a
20-byte one (11 body bytes) reaches the out-of-range branch. -/
theorem network_status_body_bounds_witness :
    (cmd_handler_0x63 1
      [0, 0, 0, 0, 0, 0, 0, 0, 0, 0, 0, 0, 0, 0, 0, 0, 0, 0, 0, 0, 0]).isSome = true ∧
    ¬ ((cmd_handler_0x63 1
      [0, 0, 0, 0, 0, 0, 0, 0, 0, 0, 0, 0, 0, 0, 0, 0, 0, 0, 0, 0]).isSome = true) :=
  ⟨(network_status_body_bounds
      [0, 0, 0, 0, 0, 0, 0, 0, 0, 0, 0, 0, 0, 0, 0, 0, 0, 0, 0, 0, 0]).1.mpr (by decide),
   fun h => absurd ((network_status_body_bounds
      [0, 0, 0, 0, 0, 0, 0, 0, 0, 0, 0, 0, 0, 0, 0, 0, 0, 0, 0, 0]).1.mp h) (by decide)⟩

end MideaSerial
